import Mathlib

/-!
# payment-module: the provider abstraction of `payment.go`

A shallow embedding of `src/payment.go` and theorems about it.

Modelling conventions.

* A Go pointer `*T` is an `Option T`: `nil` is `none`, `&T{..}` is `some {..}`.
  Pointers are compared through what they point to; the address of an allocation
  is not part of the model.
* A Go `error` is an `Option GoError`: `nil` is `none`.
* A Go multiple return `(*T, error)` is the pair `Option T × Option GoError`, so that
  all four nil/non-nil combinations are expressible.
* `int64` is the subtype of `Int` between `-2^63` and `2^63 - 1`.
* A method with receiver `(s *StripeProvider)` takes the receiver pointer as its first
  argument.
-/

namespace Payment

/-! ## Machine integers -/

/-- Smallest value of Go's `int64`. -/
def minInt64 : Int := -9223372036854775808

/-- Largest value of Go's `int64`. -/
def maxInt64 : Int := 9223372036854775807

/-- Go's `int64`: the integers of the two's-complement 64-bit range. -/
def Int64 : Type := { n : Int // minInt64 ≤ n ∧ n ≤ maxInt64 }

instance : DecidableEq Int64 := fun a b =>
  decidable_of_iff (a.val = b.val) Subtype.ext_iff.symm

/-- The `int64` with the given value, when it is in range. -/
def Int64.ofInt (n : Int) (h : minInt64 ≤ n ∧ n ≤ maxInt64) : Int64 := ⟨n, h⟩

/-! ## Errors (`errors.New`) -/

/-- A non-nil Go `error` of this package. Every error of the package is made by
`errors.New`, which returns a pointer to a new `errorString`, and two such errors are
equal (`==`) exactly when they are the same allocation. The package has three allocation
sites: the two package-level variables, initialised once, and the call of `errors.New`
inside `PayPalProvider.CreateSubscription`. A value from the third site is never the
allocation of a package-level variable; values from the third site are identified by
their text. -/
inductive GoError where
  /-- `var ErrInvalidAmount = errors.New("invalid payment amount")` -/
  | ErrInvalidAmount : GoError
  /-- `var ErrPaymentFailed = errors.New("payment failed")` -/
  | ErrPaymentFailed : GoError
  /-- A value returned by a call `errors.New(text)` made inside a function body. -/
  | New (text : String) : GoError
  deriving DecidableEq, Repr

/-- The method `Error()` of an error: the text it was made with. -/
def GoError.Error : GoError → String
  | .ErrInvalidAmount => "invalid payment amount"
  | .ErrPaymentFailed => "payment failed"
  | .New text => text

/-! ## `context.Context` -/

/-- What `ctx.Err()` can report for a context that is done. -/
inductive ContextErr where
  | Canceled : ContextErr
  | DeadlineExceeded : ContextErr
  deriving DecidableEq, Repr

/-- The observable state of a `context.Context` argument: whether the interface value
is nil, what `Err()` reports (`none` while the context is live) and its deadline, if
any. -/
structure Context where
  isNil : Bool
  Err : Option ContextErr
  Deadline : Option Int
  deriving DecidableEq, Repr

/-- The value of `context.Background()`: never cancelled, no deadline. -/
def Context.Background : Context :=
  { isNil := false, Err := none, Deadline := none }

/-- A context whose `cancel` function has already been called. -/
def Context.cancelled : Context :=
  { isNil := false, Err := some .Canceled, Deadline := none }

/-- A context whose deadline `d` has already passed. -/
def Context.expired (d : Int) : Context :=
  { isNil := false, Err := some .DeadlineExceeded, Deadline := some d }

/-! ## Data model -/

/-- The struct `PaymentResult`. -/
structure PaymentResult where
  ID : String
  Amount : Int64
  Currency : String
  Status : String
  deriving DecidableEq

/-- The struct `Subscription`. -/
structure Subscription where
  ID : String
  CustomerID : String
  PlanID : String
  Status : String
  deriving DecidableEq, Repr

/-- The struct `StripeProvider`. -/
structure StripeProvider where
  apiKey : String
  deriving DecidableEq, Repr

/-- The struct `PayPalProvider`. -/
structure PayPalProvider where
  clientID : String
  clientSecret : String
  deriving DecidableEq, Repr

/-! ## Stripe -/

/-- The constructor `NewStripeProvider`. -/
def NewStripeProvider (apiKey : String) : Option StripeProvider :=
  some { apiKey := apiKey }

/-- The method `(*StripeProvider).Charge`. -/
def StripeProvider.Charge (_s : Option StripeProvider) (_ctx : Context) (amount : Int64)
    (currency _source : String) : Option PaymentResult × Option GoError :=
  if amount.val ≤ 0 then
    (none, some GoError.ErrInvalidAmount)
  else
    (some { ID := "ch_test123", Amount := amount, Currency := currency,
            Status := "succeeded" },
     none)

/-- The method `(*StripeProvider).Refund`. -/
def StripeProvider.Refund (_s : Option StripeProvider) (_ctx : Context)
    (_chargeID : String) (_amount : Int64) : Option GoError :=
  none

/-- The method `(*StripeProvider).CreateSubscription`. -/
def StripeProvider.CreateSubscription (_s : Option StripeProvider) (_ctx : Context)
    (customerID planID : String) : Option Subscription × Option GoError :=
  (some { ID := "sub_test123", CustomerID := customerID, PlanID := planID,
          Status := "active" },
   none)

/-! ## PayPal -/

/-- The constructor `NewPayPalProvider`. -/
def NewPayPalProvider (clientID clientSecret : String) : Option PayPalProvider :=
  some { clientID := clientID, clientSecret := clientSecret }

/-- The method `(*PayPalProvider).Charge`. -/
def PayPalProvider.Charge (_p : Option PayPalProvider) (_ctx : Context) (amount : Int64)
    (currency _source : String) : Option PaymentResult × Option GoError :=
  (some { ID := "PAYID-test123", Amount := amount, Currency := currency,
          Status := "COMPLETED" },
   none)

/-- The method `(*PayPalProvider).Refund`. -/
def PayPalProvider.Refund (_p : Option PayPalProvider) (_ctx : Context)
    (_chargeID : String) (_amount : Int64) : Option GoError :=
  none

/-- The method `(*PayPalProvider).CreateSubscription`. -/
def PayPalProvider.CreateSubscription (_p : Option PayPalProvider) (_ctx : Context)
    (_customerID _planID : String) : Option Subscription × Option GoError :=
  (none, some (GoError.New "not implemented"))

/-! ## The interface `PaymentProvider` -/

/-- A value of the interface type `PaymentProvider`: the dynamic type is one of the two
types of the package that implement it, together with the receiver pointer. -/
inductive PaymentProvider where
  | stripe (s : Option StripeProvider) : PaymentProvider
  | paypal (p : Option PayPalProvider) : PaymentProvider
  deriving DecidableEq

/-- Dynamic dispatch of `Charge` through the interface. -/
def PaymentProvider.Charge (prov : PaymentProvider) (ctx : Context) (amount : Int64)
    (currency source : String) : Option PaymentResult × Option GoError :=
  match prov with
  | .stripe s => StripeProvider.Charge s ctx amount currency source
  | .paypal p => PayPalProvider.Charge p ctx amount currency source

/-- Dynamic dispatch of `Refund` through the interface. -/
def PaymentProvider.Refund (prov : PaymentProvider) (ctx : Context) (chargeID : String)
    (amount : Int64) : Option GoError :=
  match prov with
  | .stripe s => StripeProvider.Refund s ctx chargeID amount
  | .paypal p => PayPalProvider.Refund p ctx chargeID amount

/-- Dynamic dispatch of `CreateSubscription` through the interface. -/
def PaymentProvider.CreateSubscription (prov : PaymentProvider) (ctx : Context)
    (customerID planID : String) : Option Subscription × Option GoError :=
  match prov with
  | .stripe s => StripeProvider.CreateSubscription s ctx customerID planID
  | .paypal p => PayPalProvider.CreateSubscription p ctx customerID planID

/-! ## Concrete amounts used in the examples -/

/-- The amount `1000` of the Stripe test. -/
def amount1000 : Int64 := Int64.ofInt 1000 (by decide)

/-- The amount `0`. -/
def amountZero : Int64 := Int64.ofInt 0 (by decide)

/-- The amount `-100` of the Stripe test. -/
def amountNeg100 : Int64 := Int64.ofInt (-100) (by decide)

/-- The smallest `int64`. -/
def amountMin : Int64 := Int64.ofInt minInt64 (by decide)

/-- The largest `int64`. -/
def amountMax : Int64 := Int64.ofInt maxInt64 (by decide)

/-! ## Shared lemmas -/

theorem StripeProvider.Charge_of_pos (s : Option StripeProvider) (ctx : Context)
    (a : Int64) (currency source : String) (h : 0 < a.val) :
    StripeProvider.Charge s ctx a currency source
      = (some { ID := "ch_test123", Amount := a, Currency := currency,
                Status := "succeeded" }, none) := by
  unfold StripeProvider.Charge
  rw [if_neg (not_le.mpr h)]

theorem StripeProvider.Charge_of_nonpos (s : Option StripeProvider) (ctx : Context)
    (a : Int64) (currency source : String) (h : a.val ≤ 0) :
    StripeProvider.Charge s ctx a currency source
      = (none, some GoError.ErrInvalidAmount) := by
  unfold StripeProvider.Charge
  rw [if_pos h]

/-! ## Charge on Stripe -/

/-- C1: for every positive `int64` amount, every currency, every source, every
receiver and every context, `StripeProvider.Charge` returns a nil error and a non-nil
`PaymentResult` whose `Amount` and `Currency` are the ones passed in, whose `Status` is
`"succeeded"` and whose `ID` is not the empty string. -/
theorem stripe_charge_succeeds_on_positive_amount (s : Option StripeProvider)
    (ctx : Context) (a : Int64) (currency source : String) (h : 0 < a.val) :
    ∃ r : PaymentResult,
      StripeProvider.Charge s ctx a currency source = (some r, none) ∧
      r.Amount = a ∧ r.Currency = currency ∧ r.Status = "succeeded" ∧ r.ID ≠ "" := by
  refine ⟨_, StripeProvider.Charge_of_pos s ctx a currency source h, rfl, rfl, rfl, ?_⟩
  show "ch_test123" ≠ ""
  decide

theorem stripe_charge_succeeds_on_positive_amount_witness :
    0 < amount1000.val ∧
    ∃ r : PaymentResult,
      StripeProvider.Charge (NewStripeProvider "sk_test_123") Context.Background
        amount1000 "usd" "tok_visa" = (some r, none) ∧
      r.Amount = amount1000 ∧ r.Currency = "usd" ∧ r.Status = "succeeded" ∧ r.ID ≠ "" :=
  ⟨by decide,
   stripe_charge_succeeds_on_positive_amount (NewStripeProvider "sk_test_123")
     Context.Background amount1000 "usd" "tok_visa" (by decide)⟩

/-- C2: `StripeProvider.Charge` returns a non-nil error if and only if the amount is
at most zero; for an amount at most zero the return is the nil result together with the
sentinel `ErrInvalidAmount`, and for a positive amount the error is nil. -/
theorem stripe_charge_fails_iff_amount_nonpositive (s : Option StripeProvider)
    (ctx : Context) (a : Int64) (currency source : String) :
    ((StripeProvider.Charge s ctx a currency source).2 ≠ none ↔ a.val ≤ 0) ∧
    (a.val ≤ 0 →
      StripeProvider.Charge s ctx a currency source
        = (none, some GoError.ErrInvalidAmount)) ∧
    (0 < a.val → (StripeProvider.Charge s ctx a currency source).2 = none) := by
  refine ⟨?_, StripeProvider.Charge_of_nonpos s ctx a currency source, ?_⟩
  · constructor
    · intro hne
      by_contra hpos
      exact hne (by rw [StripeProvider.Charge_of_pos s ctx a currency source
        (not_le.mp hpos)])
    · intro hle
      rw [StripeProvider.Charge_of_nonpos s ctx a currency source hle]
      simp
  · intro hpos
    rw [StripeProvider.Charge_of_pos s ctx a currency source hpos]

theorem stripe_charge_fails_iff_amount_nonpositive_witness :
    StripeProvider.Charge (NewStripeProvider "sk_test_123") Context.Background
        amountMin "usd" "tok_visa" = (none, some GoError.ErrInvalidAmount) ∧
    StripeProvider.Charge (NewStripeProvider "sk_test_123") Context.Background
        amountZero "usd" "tok_visa" = (none, some GoError.ErrInvalidAmount) ∧
    StripeProvider.Charge (NewStripeProvider "sk_test_123") Context.Background
        amountNeg100 "usd" "tok_visa" = (none, some GoError.ErrInvalidAmount) ∧
    (StripeProvider.Charge (NewStripeProvider "sk_test_123") Context.Background
        amountMax "usd" "tok_visa").2 = none :=
  ⟨(stripe_charge_fails_iff_amount_nonpositive (NewStripeProvider "sk_test_123")
      Context.Background amountMin "usd" "tok_visa").2.1 (by decide),
   (stripe_charge_fails_iff_amount_nonpositive (NewStripeProvider "sk_test_123")
      Context.Background amountZero "usd" "tok_visa").2.1 (by decide),
   (stripe_charge_fails_iff_amount_nonpositive (NewStripeProvider "sk_test_123")
      Context.Background amountNeg100 "usd" "tok_visa").2.1 (by decide),
   (stripe_charge_fails_iff_amount_nonpositive (NewStripeProvider "sk_test_123")
      Context.Background amountMax "usd" "tok_visa").2.2 (by decide)⟩

/-! ## Charge on PayPal -/

/-- C3: for every `int64` amount, positive or not, every currency and every source,
`PayPalProvider.Charge` returns a nil error and a non-nil `PaymentResult` whose `Amount`
and `Currency` are the ones passed in, whose `Status` is `"COMPLETED"` and whose `ID` is
not the empty string; its error is never `ErrInvalidAmount`. -/
theorem paypal_charge_succeeds_on_every_amount (p : Option PayPalProvider)
    (ctx : Context) (a : Int64) (currency source : String) :
    (∃ r : PaymentResult,
      PayPalProvider.Charge p ctx a currency source = (some r, none) ∧
      r.Amount = a ∧ r.Currency = currency ∧ r.Status = "COMPLETED" ∧ r.ID ≠ "") ∧
    (PayPalProvider.Charge p ctx a currency source).2 ≠ some GoError.ErrInvalidAmount := by
  refine ⟨⟨_, rfl, rfl, rfl, rfl, ?_⟩, ?_⟩
  · show "PAYID-test123" ≠ ""
    decide
  · show (none : Option GoError) ≠ some GoError.ErrInvalidAmount
    exact Option.noConfusion

/-! ## Refund -/

/-- C4: for every charge identifier (the empty one included) and every `int64` amount
(zero and negative ones included), `Refund` returns a nil error on `StripeProvider` and
on `PayPalProvider`. -/
theorem refund_returns_nil_error (s : Option StripeProvider) (p : Option PayPalProvider)
    (ctx : Context) (chargeID : String) (amount : Int64) :
    StripeProvider.Refund s ctx chargeID amount = none ∧
    PayPalProvider.Refund p ctx chargeID amount = none :=
  ⟨rfl, rfl⟩

/-! ## CreateSubscription -/

/-- C5: for every customer identifier and plan identifier (empty ones included),
`StripeProvider.CreateSubscription` returns a nil error and a non-nil `Subscription`
whose `CustomerID` and `PlanID` are the ones passed in, whose `Status` is `"active"` and
whose `ID` is not the empty string. -/
theorem stripe_create_subscription_succeeds (s : Option StripeProvider) (ctx : Context)
    (customerID planID : String) :
    ∃ sub : Subscription,
      StripeProvider.CreateSubscription s ctx customerID planID = (some sub, none) ∧
      sub.CustomerID = customerID ∧ sub.PlanID = planID ∧ sub.Status = "active" ∧
      sub.ID ≠ "" := by
  refine ⟨_, rfl, rfl, rfl, rfl, ?_⟩
  show "sub_test123" ≠ ""
  decide

/-- C6: for every customer identifier and plan identifier,
`PayPalProvider.CreateSubscription` returns a nil subscription and a non-nil error, and
no input makes it return a nil error. -/
theorem paypal_create_subscription_always_fails :
    (∀ (p : Option PayPalProvider) (ctx : Context) (customerID planID : String),
      (PayPalProvider.CreateSubscription p ctx customerID planID).1 = none ∧
      (PayPalProvider.CreateSubscription p ctx customerID planID).2 ≠ none) ∧
    ¬ ∃ (p : Option PayPalProvider) (ctx : Context) (customerID planID : String),
      (PayPalProvider.CreateSubscription p ctx customerID planID).2 = none := by
  constructor
  · intro p ctx customerID planID
    exact ⟨rfl, Option.noConfusion⟩
  · rintro ⟨p, ctx, customerID, planID, h⟩
    exact Option.noConfusion h

/-! ## The amount invariant -/

/-- C7: for each of the two provider variants behind the interface `PaymentProvider` and
every amount, currency and source, when `Charge` returns a non-nil `PaymentResult`, its
`Amount` is the amount that was requested. -/
theorem charge_result_amount_eq_requested (prov : PaymentProvider) (ctx : Context)
    (a : Int64) (currency source : String) (r : PaymentResult)
    (h : (prov.Charge ctx a currency source).1 = some r) : r.Amount = a := by
  cases prov with
  | stripe s =>
    by_cases ha : a.val ≤ 0
    · have e : PaymentProvider.Charge (.stripe s) ctx a currency source
          = (none, some GoError.ErrInvalidAmount) :=
        StripeProvider.Charge_of_nonpos s ctx a currency source ha
      rw [e] at h
      exact Option.noConfusion h
    · have e : PaymentProvider.Charge (.stripe s) ctx a currency source
          = (some { ID := "ch_test123", Amount := a, Currency := currency,
                    Status := "succeeded" }, none) :=
        StripeProvider.Charge_of_pos s ctx a currency source (not_le.mp ha)
      rw [e] at h
      cases h
      rfl
  | paypal p =>
    have e : PaymentProvider.Charge (.paypal p) ctx a currency source
        = (some { ID := "PAYID-test123", Amount := a, Currency := currency,
                  Status := "COMPLETED" }, none) := rfl
    rw [e] at h
    cases h
    rfl

theorem charge_result_amount_eq_requested_witness :
    (PaymentProvider.Charge (.paypal (NewPayPalProvider "client_id" "client_secret"))
        Context.Background amountNeg100 "usd" "paypal_account").1
      = some { ID := "PAYID-test123", Amount := amountNeg100, Currency := "usd",
               Status := "COMPLETED" } ∧
    (PaymentProvider.Charge (.stripe (NewStripeProvider "sk_test_123"))
        Context.Background amount1000 "usd" "tok_visa").1
      = some { ID := "ch_test123", Amount := amount1000, Currency := "usd",
               Status := "succeeded" } ∧
    ({ ID := "PAYID-test123", Amount := amountNeg100, Currency := "usd",
       Status := "COMPLETED" } : PaymentResult).Amount = amountNeg100 ∧
    ({ ID := "ch_test123", Amount := amount1000, Currency := "usd",
       Status := "succeeded" } : PaymentResult).Amount = amount1000 :=
  ⟨by decide, by decide,
   charge_result_amount_eq_requested
     (.paypal (NewPayPalProvider "client_id" "client_secret")) Context.Background
     amountNeg100 "usd" "paypal_account" _ (by decide),
   charge_result_amount_eq_requested
     (.stripe (NewStripeProvider "sk_test_123")) Context.Background
     amount1000 "usd" "tok_visa" _ (by decide)⟩

/-! ## The unused sentinel -/

/-- C8: the sentinel `ErrPaymentFailed` is never produced: for every input, the error
returned by `Charge`, `Refund` and `CreateSubscription`, on `StripeProvider` and on
`PayPalProvider`, is not `ErrPaymentFailed`. -/
theorem err_payment_failed_never_returned (s : Option StripeProvider)
    (p : Option PayPalProvider) (ctx : Context) (amount : Int64)
    (currency source chargeID customerID planID : String) :
    (StripeProvider.Charge s ctx amount currency source).2
        ≠ some GoError.ErrPaymentFailed ∧
    StripeProvider.Refund s ctx chargeID amount ≠ some GoError.ErrPaymentFailed ∧
    (StripeProvider.CreateSubscription s ctx customerID planID).2
        ≠ some GoError.ErrPaymentFailed ∧
    (PayPalProvider.Charge p ctx amount currency source).2
        ≠ some GoError.ErrPaymentFailed ∧
    PayPalProvider.Refund p ctx chargeID amount ≠ some GoError.ErrPaymentFailed ∧
    (PayPalProvider.CreateSubscription p ctx customerID planID).2
        ≠ some GoError.ErrPaymentFailed := by
  refine ⟨?_, ?_, ?_, ?_, ?_, ?_⟩
  · by_cases ha : amount.val ≤ 0
    · rw [StripeProvider.Charge_of_nonpos s ctx amount currency source ha]
      intro h
      exact GoError.noConfusion (Option.some.inj h)
    · rw [StripeProvider.Charge_of_pos s ctx amount currency source (not_le.mp ha)]
      exact Option.noConfusion
  · show (none : Option GoError) ≠ _
    exact Option.noConfusion
  · show (none : Option GoError) ≠ _
    exact Option.noConfusion
  · show (none : Option GoError) ≠ _
    exact Option.noConfusion
  · show (none : Option GoError) ≠ _
    exact Option.noConfusion
  · show some (GoError.New "not implemented") ≠ _
    intro h
    exact GoError.noConfusion (Option.some.inj h)

/-! ## Independence of the credentials and of the context -/

/-- C9: the credentials do not reach the results. For two `StripeProvider`s built by
`NewStripeProvider` from different API keys, and for two `PayPalProvider`s built by
`NewPayPalProvider` from different pairs of client identifier and client secret,
`Charge`, `Refund` and `CreateSubscription` called with the same arguments return the
same result and the same error. -/
theorem results_independent_of_credentials (k₁ k₂ : String) (i₁ c₁ i₂ c₂ : String)
    (_hk : k₁ ≠ k₂) (_hp : (i₁, c₁) ≠ (i₂, c₂)) (ctx : Context) (amount : Int64)
    (currency source chargeID customerID planID : String) :
    StripeProvider.Charge (NewStripeProvider k₁) ctx amount currency source
      = StripeProvider.Charge (NewStripeProvider k₂) ctx amount currency source ∧
    StripeProvider.Refund (NewStripeProvider k₁) ctx chargeID amount
      = StripeProvider.Refund (NewStripeProvider k₂) ctx chargeID amount ∧
    StripeProvider.CreateSubscription (NewStripeProvider k₁) ctx customerID planID
      = StripeProvider.CreateSubscription (NewStripeProvider k₂) ctx customerID planID ∧
    PayPalProvider.Charge (NewPayPalProvider i₁ c₁) ctx amount currency source
      = PayPalProvider.Charge (NewPayPalProvider i₂ c₂) ctx amount currency source ∧
    PayPalProvider.Refund (NewPayPalProvider i₁ c₁) ctx chargeID amount
      = PayPalProvider.Refund (NewPayPalProvider i₂ c₂) ctx chargeID amount ∧
    PayPalProvider.CreateSubscription (NewPayPalProvider i₁ c₁) ctx customerID planID
      = PayPalProvider.CreateSubscription (NewPayPalProvider i₂ c₂) ctx customerID
          planID :=
  ⟨rfl, rfl, rfl, rfl, rfl, rfl⟩

theorem results_independent_of_credentials_witness :
    NewStripeProvider "sk_test_123" ≠ NewStripeProvider "sk_live_456" ∧
    NewPayPalProvider "client_id" "client_secret"
      ≠ NewPayPalProvider "client_id" "other_secret" ∧
    StripeProvider.Charge (NewStripeProvider "sk_test_123") Context.Background
        amount1000 "usd" "tok_visa"
      = StripeProvider.Charge (NewStripeProvider "sk_live_456") Context.Background
        amount1000 "usd" "tok_visa" ∧
    PayPalProvider.CreateSubscription (NewPayPalProvider "client_id" "client_secret")
        Context.Background "cus_test123" "plan_test123"
      = PayPalProvider.CreateSubscription (NewPayPalProvider "client_id" "other_secret")
        Context.Background "cus_test123" "plan_test123" :=
  have h := results_independent_of_credentials "sk_test_123" "sk_live_456"
    "client_id" "client_secret" "client_id" "other_secret" (by decide) (by decide)
    Context.Background amount1000 "usd" "tok_visa" "ch_test123" "cus_test123"
    "plan_test123"
  ⟨by decide, by decide, h.1, h.2.2.2.2.2⟩

/-- C10: the context is never consulted. For any two contexts, a cancelled or expired
one included, and the same amount, currency and source, `Charge` returns the same result
and the same error, on `StripeProvider` and on `PayPalProvider`. -/
theorem charge_independent_of_context (s : Option StripeProvider)
    (p : Option PayPalProvider) (ctx₁ ctx₂ : Context) (amount : Int64)
    (currency source : String) :
    StripeProvider.Charge s ctx₁ amount currency source
      = StripeProvider.Charge s ctx₂ amount currency source ∧
    PayPalProvider.Charge p ctx₁ amount currency source
      = PayPalProvider.Charge p ctx₂ amount currency source :=
  ⟨rfl, rfl⟩

/-! ## Constructors -/

/-- C11: `NewStripeProvider k` returns a non-nil provider whose `apiKey` is `k`, and
`NewPayPalProvider i c` returns a non-nil provider whose `clientID` is `i` and whose
`clientSecret` is `c`, for all strings: the credentials are stored as they are given. -/
theorem constructors_store_credentials (k i c : String) :
    (∃ s : StripeProvider, NewStripeProvider k = some s ∧ s.apiKey = k) ∧
    (∃ p : PayPalProvider,
      NewPayPalProvider i c = some p ∧ p.clientID = i ∧ p.clientSecret = c) :=
  ⟨⟨_, rfl, rfl⟩, ⟨_, rfl, rfl, rfl⟩⟩

/-! ## Identifiers -/

/-- C12: the identifiers are literal constants. Every successful `StripeProvider.Charge`
returns the `ID` `"ch_test123"`, every `PayPalProvider.Charge` returns the `ID`
`"PAYID-test123"` and every `StripeProvider.CreateSubscription` returns the `ID`
`"sub_test123"`; hence two successful calls of the same operation return the same `ID`
whatever their inputs are. -/
theorem identifiers_are_literal_constants :
    (∀ (s : Option StripeProvider) (ctx : Context) (a : Int64) (currency source : String)
        (r : PaymentResult),
      StripeProvider.Charge s ctx a currency source = (some r, none) →
      r.ID = "ch_test123") ∧
    (∀ (p : Option PayPalProvider) (ctx : Context) (a : Int64) (currency source : String),
      ∃ r : PaymentResult,
        PayPalProvider.Charge p ctx a currency source = (some r, none) ∧
        r.ID = "PAYID-test123") ∧
    (∀ (s : Option StripeProvider) (ctx : Context) (customerID planID : String),
      ∃ sub : Subscription,
        StripeProvider.CreateSubscription s ctx customerID planID = (some sub, none) ∧
        sub.ID = "sub_test123") ∧
    (∀ (s₁ s₂ : Option StripeProvider) (ctx₁ ctx₂ : Context) (a₁ a₂ : Int64)
        (currency₁ currency₂ source₁ source₂ : String) (r₁ r₂ : PaymentResult),
      StripeProvider.Charge s₁ ctx₁ a₁ currency₁ source₁ = (some r₁, none) →
      StripeProvider.Charge s₂ ctx₂ a₂ currency₂ source₂ = (some r₂, none) →
      r₁.ID = r₂.ID) ∧
    (∀ (p₁ p₂ : Option PayPalProvider) (ctx₁ ctx₂ : Context) (a₁ a₂ : Int64)
        (currency₁ currency₂ source₁ source₂ : String) (r₁ r₂ : PaymentResult),
      PayPalProvider.Charge p₁ ctx₁ a₁ currency₁ source₁ = (some r₁, none) →
      PayPalProvider.Charge p₂ ctx₂ a₂ currency₂ source₂ = (some r₂, none) →
      r₁.ID = r₂.ID) ∧
    (∀ (s₁ s₂ : Option StripeProvider) (ctx₁ ctx₂ : Context)
        (customerID₁ customerID₂ planID₁ planID₂ : String) (sub₁ sub₂ : Subscription),
      StripeProvider.CreateSubscription s₁ ctx₁ customerID₁ planID₁ = (some sub₁, none) →
      StripeProvider.CreateSubscription s₂ ctx₂ customerID₂ planID₂ = (some sub₂, none) →
      sub₁.ID = sub₂.ID) := by
  have stripe : ∀ (s : Option StripeProvider) (ctx : Context) (a : Int64)
      (currency source : String) (r : PaymentResult),
      StripeProvider.Charge s ctx a currency source = (some r, none) →
      r.ID = "ch_test123" := by
    intro s ctx a currency source r h
    by_cases ha : a.val ≤ 0
    · rw [StripeProvider.Charge_of_nonpos s ctx a currency source ha] at h
      exact Option.noConfusion (congrArg Prod.fst h)
    · rw [StripeProvider.Charge_of_pos s ctx a currency source (not_le.mp ha)] at h
      have e := Option.some.inj (congrArg Prod.fst h)
      rw [← e]
  have paypal : ∀ (p : Option PayPalProvider) (ctx : Context) (a : Int64)
      (currency source : String) (r : PaymentResult),
      PayPalProvider.Charge p ctx a currency source = (some r, none) →
      r.ID = "PAYID-test123" := by
    intro p ctx a currency source r h
    have e := Option.some.inj (congrArg Prod.fst h)
    rw [← e]
  have subscription : ∀ (s : Option StripeProvider) (ctx : Context)
      (customerID planID : String) (sub : Subscription),
      StripeProvider.CreateSubscription s ctx customerID planID = (some sub, none) →
      sub.ID = "sub_test123" := by
    intro s ctx customerID planID sub h
    have e := Option.some.inj (congrArg Prod.fst h)
    rw [← e]
  refine ⟨stripe, ?_, ?_, ?_, ?_, ?_⟩
  · intro p ctx a currency source
    exact ⟨_, rfl, rfl⟩
  · intro s ctx customerID planID
    exact ⟨_, rfl, rfl⟩
  · intro s₁ s₂ ctx₁ ctx₂ a₁ a₂ currency₁ currency₂ source₁ source₂ r₁ r₂ h₁ h₂
    rw [stripe _ _ _ _ _ _ h₁, stripe _ _ _ _ _ _ h₂]
  · intro p₁ p₂ ctx₁ ctx₂ a₁ a₂ currency₁ currency₂ source₁ source₂ r₁ r₂ h₁ h₂
    rw [paypal _ _ _ _ _ _ h₁, paypal _ _ _ _ _ _ h₂]
  · intro s₁ s₂ ctx₁ ctx₂ customerID₁ customerID₂ planID₁ planID₂ sub₁ sub₂ h₁ h₂
    rw [subscription _ _ _ _ _ h₁, subscription _ _ _ _ _ h₂]

theorem identifiers_are_literal_constants_witness :
    amount1000 ≠ amountMax ∧
    ({ ID := "ch_test123", Amount := amount1000, Currency := "usd",
       Status := "succeeded" } : PaymentResult).ID
      = ({ ID := "ch_test123", Amount := amountMax, Currency := "eur",
           Status := "succeeded" } : PaymentResult).ID :=
  ⟨by decide,
   identifiers_are_literal_constants.2.2.2.1
     (NewStripeProvider "sk_test_123") (NewStripeProvider "sk_live_456")
     Context.Background Context.cancelled amount1000 amountMax "usd" "eur"
     "tok_visa" "tok_mastercard" _ _ (by decide) (by decide)⟩

/-! ## The error of the unsupported operation -/

/-- C13: for every input, the error returned by `PayPalProvider.CreateSubscription` is
non-nil, is neither of the declared sentinels `ErrInvalidAmount` and `ErrPaymentFailed`,
and its message is `"not implemented"`, which is the message of neither sentinel. -/
theorem paypal_create_subscription_error_is_not_implemented (p : Option PayPalProvider)
    (ctx : Context) (customerID planID : String) :
    ∃ e : GoError,
      (PayPalProvider.CreateSubscription p ctx customerID planID).2 = some e ∧
      e ≠ GoError.ErrInvalidAmount ∧ e ≠ GoError.ErrPaymentFailed ∧
      e.Error = "not implemented" ∧
      e.Error ≠ GoError.ErrInvalidAmount.Error ∧
      e.Error ≠ GoError.ErrPaymentFailed.Error := by
  refine ⟨GoError.New "not implemented", rfl, ?_, ?_, rfl, ?_, ?_⟩
  · exact GoError.noConfusion
  · exact GoError.noConfusion
  · show "not implemented" ≠ "invalid payment amount"
    decide
  · show "not implemented" ≠ "payment failed"
    decide

/-! ## Exactly one of result and error -/

/-- C14: result and error are mutually exclusive. For each of the two provider variants
and every input, `Charge` returns either a non-nil result with a nil error or a nil
result with a non-nil error, and so does `CreateSubscription`: never both nil, never
both non-nil. -/
theorem result_and_error_mutually_exclusive (prov : PaymentProvider) (ctx : Context)
    (a : Int64) (currency source customerID planID : String) :
    (((prov.Charge ctx a currency source).1 ≠ none ∧
        (prov.Charge ctx a currency source).2 = none) ∨
      ((prov.Charge ctx a currency source).1 = none ∧
        (prov.Charge ctx a currency source).2 ≠ none)) ∧
    (((prov.CreateSubscription ctx customerID planID).1 ≠ none ∧
        (prov.CreateSubscription ctx customerID planID).2 = none) ∨
      ((prov.CreateSubscription ctx customerID planID).1 = none ∧
        (prov.CreateSubscription ctx customerID planID).2 ≠ none)) := by
  cases prov with
  | stripe s =>
    constructor
    · by_cases ha : a.val ≤ 0
      · right
        have e : PaymentProvider.Charge (.stripe s) ctx a currency source
            = (none, some GoError.ErrInvalidAmount) :=
          StripeProvider.Charge_of_nonpos s ctx a currency source ha
        rw [e]
        exact ⟨rfl, Option.noConfusion⟩
      · left
        have e : PaymentProvider.Charge (.stripe s) ctx a currency source
            = (some { ID := "ch_test123", Amount := a, Currency := currency,
                      Status := "succeeded" }, none) :=
          StripeProvider.Charge_of_pos s ctx a currency source (not_le.mp ha)
        rw [e]
        exact ⟨Option.noConfusion, rfl⟩
    · left
      exact ⟨Option.noConfusion, rfl⟩
  | paypal p =>
    constructor
    · left
      exact ⟨Option.noConfusion, rfl⟩
    · right
      exact ⟨rfl, Option.noConfusion⟩

/-! ## Stripe against PayPal -/

/-- C15: on the same amount, currency and source, the two variants of `Charge` both
succeed exactly when the amount is positive. For a positive amount the two results have
the same `Amount` and `Currency` and differ in `ID` and in `Status`, and in nothing else:
putting the `ID` and `Status` of the PayPal result into the Stripe result gives the
PayPal result. For an amount at most zero Stripe returns a nil result and a non-nil
error while PayPal returns a non-nil result and a nil error. -/
theorem stripe_and_paypal_charge_compared (s : Option StripeProvider)
    (p : Option PayPalProvider) (ctx : Context) (a : Int64) (currency source : String) :
    (((StripeProvider.Charge s ctx a currency source).2 = none ↔
        (PayPalProvider.Charge p ctx a currency source).2 = none) ↔ 0 < a.val) ∧
    (0 < a.val →
      ∃ rs rp : PaymentResult,
        StripeProvider.Charge s ctx a currency source = (some rs, none) ∧
        PayPalProvider.Charge p ctx a currency source = (some rp, none) ∧
        rs.Amount = rp.Amount ∧ rs.Currency = rp.Currency ∧
        rs.ID ≠ rp.ID ∧ rs.Status ≠ rp.Status ∧
        { rs with ID := rp.ID, Status := rp.Status } = rp) ∧
    (a.val ≤ 0 →
      (StripeProvider.Charge s ctx a currency source).1 = none ∧
      (StripeProvider.Charge s ctx a currency source).2 ≠ none ∧
      (PayPalProvider.Charge p ctx a currency source).1 ≠ none ∧
      (PayPalProvider.Charge p ctx a currency source).2 = none) := by
  have hp : (PayPalProvider.Charge p ctx a currency source).2 = none := rfl
  refine ⟨?_, ?_, ?_⟩
  · constructor
    · intro h
      by_contra hpos
      have e := StripeProvider.Charge_of_nonpos s ctx a currency source (not_lt.mp hpos)
      have hs := h.mpr hp
      rw [e] at hs
      exact Option.noConfusion hs
    · intro hpos
      have e := StripeProvider.Charge_of_pos s ctx a currency source hpos
      constructor
      · intro _
        exact hp
      · intro _
        rw [e]
  · intro hpos
    refine ⟨_, _, StripeProvider.Charge_of_pos s ctx a currency source hpos, rfl,
      rfl, rfl, ?_, ?_, rfl⟩
    · show "ch_test123" ≠ "PAYID-test123"
      decide
    · show "succeeded" ≠ "COMPLETED"
      decide
  · intro hle
    rw [StripeProvider.Charge_of_nonpos s ctx a currency source hle]
    exact ⟨rfl, Option.noConfusion, Option.noConfusion, rfl⟩

theorem stripe_and_paypal_charge_compared_witness :
    (∃ rs rp : PaymentResult,
      StripeProvider.Charge (NewStripeProvider "sk_test_123") Context.Background
        amount1000 "usd" "source" = (some rs, none) ∧
      PayPalProvider.Charge (NewPayPalProvider "client_id" "client_secret")
        Context.Background amount1000 "usd" "source" = (some rp, none) ∧
      rs.Amount = rp.Amount ∧ rs.Currency = rp.Currency ∧
      rs.ID ≠ rp.ID ∧ rs.Status ≠ rp.Status ∧
      { rs with ID := rp.ID, Status := rp.Status } = rp) ∧
    ((StripeProvider.Charge (NewStripeProvider "sk_test_123") Context.Background
        amountZero "usd" "source").1 = none ∧
      (StripeProvider.Charge (NewStripeProvider "sk_test_123") Context.Background
        amountZero "usd" "source").2 ≠ none ∧
      (PayPalProvider.Charge (NewPayPalProvider "client_id" "client_secret")
        Context.Background amountZero "usd" "source").1 ≠ none ∧
      (PayPalProvider.Charge (NewPayPalProvider "client_id" "client_secret")
        Context.Background amountZero "usd" "source").2 = none) :=
  ⟨(stripe_and_paypal_charge_compared (NewStripeProvider "sk_test_123")
      (NewPayPalProvider "client_id" "client_secret") Context.Background amount1000
      "usd" "source").2.1 (by decide),
   (stripe_and_paypal_charge_compared (NewStripeProvider "sk_test_123")
      (NewPayPalProvider "client_id" "client_secret") Context.Background amountZero
      "usd" "source").2.2 (by decide)⟩

end Payment
